import Mathlib

/-!
Shallow embedding of the ownership-reference validation engine of
kubectl-check-ownerreferences (pkg/verify.go), together with the parts of
the k8s.io/apimachinery schema package that it relies on
(ParseGroupVersion, the String renderings of GroupVersion, GroupResource,
and the emptiness test of GroupVersionKind).

External collaborators (the discovery client, the metadata lister and the
REST mapper) are modelled as oracle functions supplied in an environment
record; the engine itself is translated statement by statement from
pkg/verify.go.
-/

/-! ### Schema types (k8s.io/apimachinery/pkg/runtime/schema) -/

structure GroupVersion where
  group : String
  version : String
deriving DecidableEq, Repr

structure GroupVersionKind where
  group : String
  version : String
  kind : String
deriving DecidableEq, Repr

structure GroupVersionResource where
  group : String
  version : String
  resource : String
deriving DecidableEq, Repr

structure GroupResource where
  group : String
  resource : String
deriving DecidableEq, Repr

structure GroupKind where
  group : String
  kind : String
deriving DecidableEq, Repr

/-- GroupVersion.String(): empty group renders as just the version,
otherwise group/version. -/
def gvString (gv : GroupVersion) : String :=
  if gv.group = "" then gv.version else gv.group ++ "/" ++ gv.version

/-- GroupResource.String(): empty group renders as just the resource,
otherwise resource.group. -/
def grString (gr : GroupResource) : String :=
  if gr.group = "" then gr.resource else gr.resource ++ "." ++ gr.group

/-- GroupVersionKind.Empty(): all three fields empty. -/
def gvkEmpty (gvk : GroupVersionKind) : Prop :=
  gvk.group = "" ∧ gvk.version = "" ∧ gvk.kind = ""

instance (gvk : GroupVersionKind) : Decidable (gvkEmpty gvk) := by
  unfold gvkEmpty; infer_instance

/-- GroupVersionResource.GroupVersion(). -/
def GroupVersionResource.groupVersion (gvr : GroupVersionResource) : GroupVersion :=
  ⟨gvr.group, gvr.version⟩

/-- GroupVersionResource.GroupResource(). -/
def GroupVersionResource.groupResource (gvr : GroupVersionResource) : GroupResource :=
  ⟨gvr.group, gvr.resource⟩

/-! ### schema.ParseGroupVersion

The Go implementation returns the zero GroupVersion for "" and "/",
returns {Group:"", Version:gv} when the string holds no slash, splits at
the first slash when it holds exactly one, and errors otherwise.  It is
embedded over the character list of the string so that it evaluates by
kernel reduction.
-/

/-- Split a character list at the first slash (undefined second component
is only used when a slash is present). -/
def breakAtSlash : List Char → List Char × List Char
  | [] => ([], [])
  | c :: rest =>
    if c = '/' then ([], rest)
    else
      let p := breakAtSlash rest
      (c :: p.1, p.2)

/-- Number of slash characters in a string (strings.Count(gv, "/")). -/
def slashCount (s : String) : Nat :=
  (s.toList.filter (fun c => c = '/')).length

/-- schema.ParseGroupVersion. -/
def ParseGroupVersion (gv : String) : Except String GroupVersion :=
  if gv = "" ∨ gv = "/" then .ok ⟨"", ""⟩
  else
    match slashCount gv with
    | 0 => .ok ⟨"", gv⟩
    | 1 =>
      let p := breakAtSlash gv.toList
      .ok ⟨String.mk p.1, String.mk p.2⟩
    | _ => .error ("unexpected GroupVersion string: " ++ gv)

/-- The error-discarding use `actualOwnerGV, _ := schema.ParseGroupVersion(...)`:
the zero GroupVersion stands in for the error case. -/
def parseGroupVersionLenient (gv : String) : GroupVersion :=
  match ParseGroupVersion gv with
  | .ok g => g
  | .error _ => ⟨"", ""⟩

/-- strings.ToLower restricted to its per-character action (ASCII on the
kinds this tool compares). -/
def toLowerStr (s : String) : String :=
  String.mk (s.toList.map Char.toLower)

/-! ### Object metadata (metav1.OwnerReference, metav1.PartialObjectMetadata)

The namespace field is called nspace because namespace is a Lean keyword.
-/

structure OwnerReference where
  apiVersion : String
  kind : String
  name : String
  uid : String
deriving DecidableEq, Repr

structure PartialObjectMetadata where
  apiVersion : String
  kind : String
  nspace : String
  name : String
  uid : String
  ownerReferences : List OwnerReference
deriving DecidableEq, Repr

/-! ### REST mapping layer (oracle) -/

/-- meta.RESTScopeNameNamespace / meta.RESTScopeNameRoot. -/
inductive RESTScopeName where
  | namespaced
  | cluster
deriving DecidableEq, Repr

structure RESTMapping where
  resource : GroupVersionResource
  scope : RESTScopeName
deriving DecidableEq, Repr

/-- The state the validation loop of Run reads: the REST mapper, the two
recorded failure maps, and the per-UID index.  Maps are total functions
(Go map lookups default to the zero value: none / the empty list). -/
structure ValidateEnv where
  restMapping : GroupKind → String → Except String RESTMapping
  gvDiscoveryFailures : GroupVersion → Option String
  grListErrors : GroupResource → Option String
  byUID : String → List PartialObjectMetadata

/-! ### Findings -/

def levelError : String := "Error"

def levelWarning : String := "Warning"

/-- One call of outputRefMessage: the row/record written for one owner
reference of one child object. -/
structure Finding where
  gvr : GroupVersionResource
  item : PartialObjectMetadata
  ownerRef : OwnerReference
  level : String
  msg : String
deriving DecidableEq, Repr

/-! ### The multi-candidate cross-check loop (verify.go lines 241-278) -/

structure CrossState where
  namespaceOk : Bool
  actualNamespace : String
  nameOk : Bool
  actualName : String
  groupKindOk : Bool
  actualGVK : GroupVersionKind
deriving DecidableEq, Repr

def crossInit : CrossState :=
  ⟨false, "", false, "", false, ⟨"", "", ""⟩⟩

/-- One iteration of the `for _, actualOwner := range actualOwners` loop. -/
def crossStep (ownerGV : GroupVersion) (ownerRef : OwnerReference)
    (child : PartialObjectMetadata) (st : CrossState)
    (actualOwner : PartialObjectMetadata) : CrossState :=
  let st1 :=
    if actualOwner.name = ownerRef.name then { st with nameOk := true }
    else { st with actualName := actualOwner.name }
  let st2 :=
    if actualOwner.nspace = "" ∨ actualOwner.nspace = child.nspace then
      { st1 with namespaceOk := true }
    else { st1 with actualNamespace := actualOwner.nspace }
  if actualOwner.apiVersion = "" ∨ actualOwner.kind = "" then
    { st2 with groupKindOk := true }
  else
    let actualOwnerGV := parseGroupVersionLenient actualOwner.apiVersion
    if actualOwner.kind = ownerRef.kind ∧ actualOwnerGV.group = ownerGV.group then
      { st2 with groupKindOk := true }
    else if toLowerStr actualOwner.kind = ownerRef.kind ∧ actualOwnerGV.group = ownerGV.group then
      -- RESTMapper tolerates an all-lowercase kind as input to the lookup
      { st2 with groupKindOk := true }
    else
      { st2 with actualGVK := ⟨actualOwnerGV.group, actualOwnerGV.version, actualOwner.kind⟩ }

def crossCheck (ownerGV : GroupVersion) (ownerRef : OwnerReference)
    (child : PartialObjectMetadata)
    (actualOwners : List PartialObjectMetadata) : CrossState :=
  actualOwners.foldl (crossStep ownerGV ownerRef child) crossInit

/-! ### Per-owner-reference validation (verify.go lines 205-291) -/

/-- The body of the `for _, ownerRef := range child.OwnerReferences` loop:
at most one finding per owner reference, produced by the first check that
fires, none when no check fires. -/
def checkOwnerRef (env : ValidateEnv) (gvr : GroupVersionResource)
    (child : PartialObjectMetadata) (ownerRef : OwnerReference) : Option Finding :=
  match ParseGroupVersion ownerRef.apiVersion with
  | .error e =>
    some ⟨gvr, child, ownerRef, levelError,
      "invalid owner apiVersion " ++ ownerRef.apiVersion ++ ": " ++ e⟩
  | .ok ownerGV =>
    match env.restMapping ⟨ownerGV.group, ownerRef.kind⟩ ownerGV.version with
    | .error e =>
      match env.gvDiscoveryFailures ownerGV with
      | some discoveryErr =>
        some ⟨gvr, child, ownerRef, levelWarning,
          "failed resolving resources for " ++ ownerRef.apiVersion ++ ": " ++ discoveryErr⟩
      | none =>
        some ⟨gvr, child, ownerRef, levelError,
          "cannot resolve owner apiVersion/kind: " ++ e⟩
    | .ok mapping =>
      let ownerGR := mapping.resource.groupResource
      if mapping.scope = RESTScopeName.namespaced ∧ child.nspace = "" then
        some ⟨gvr, child, ownerRef, levelError,
          "cannot reference namespaced type as owner (apiVersion=" ++
            gvString ⟨ownerGV.group, ownerGV.version⟩ ++ ",kind=" ++ ownerRef.kind ++ ")"⟩
      else
        let actualOwners := env.byUID ownerRef.uid
        if actualOwners = [] then
          match env.grListErrors ownerGR with
          | some _ =>
            some ⟨gvr, child, ownerRef, levelWarning,
              "could not list parent resource " ++ grString ownerGR⟩
          | none =>
            some ⟨gvr, child, ownerRef, levelError, "no object found for uid"⟩
        else
          let st := crossCheck ownerGV ownerRef child actualOwners
          if st.namespaceOk then
            if st.nameOk then
              if st.groupKindOk then none
              else
                some ⟨gvr, child, ownerRef, levelError,
                  "ownerReference group/kind (" ++ ownerGV.group ++ "/" ++ ownerRef.kind ++
                    ") does not match owner group/kind (" ++ st.actualGVK.group ++ "/" ++
                    st.actualGVK.kind ++ ")"⟩
            else
              some ⟨gvr, child, ownerRef, levelError,
                "ownerReference name (" ++ ownerRef.name ++ ") does not match owner name (" ++
                  st.actualName ++ ")"⟩
          else
            some ⟨gvr, child, ownerRef, levelError,
              "child namespace does not match owner namespace (" ++ st.actualNamespace ++ ")"⟩

/-! ### Aspect predicates

Statement vocabulary for the three aspects of the cross-check, written
the way the specification describes them; the theorems below relate
the imperative fold crossCheck to these predicates.
-/

/-- Namespace compatibility: candidate namespace empty, or equal to the
child namespace. -/
def nsPred (child : PartialObjectMetadata) (o : PartialObjectMetadata) : Bool :=
  decide (o.nspace = "" ∨ o.nspace = child.nspace)

/-- Name equality. -/
def namePred (ownerRef : OwnerReference) (o : PartialObjectMetadata) : Bool :=
  decide (o.name = ownerRef.name)

/-- Kind/group compatibility: candidate apiVersion or kind empty, or the
leniently parsed candidate group equals the parsed owner group and the
candidate kind equals the reference kind, case-insensitively on the
candidate side only. -/
def gkPred (ownerGV : GroupVersion) (ownerRef : OwnerReference)
    (o : PartialObjectMetadata) : Bool :=
  decide (o.apiVersion = "" ∨ o.kind = "") ||
    (decide ((parseGroupVersionLenient o.apiVersion).group = ownerGV.group) &&
      (decide (o.kind = ownerRef.kind) || decide (toLowerStr o.kind = ownerRef.kind)))

/-! ### Output sinks and counters (verify.go lines 165-197)

Each call of outputRefMessage writes exactly one row (tabular mode) or
one JSON record (json mode); only the tabular closure increments the
error/warning counters.  The rows/records written are collected in
emission order in the findings list.
-/

inductive OutputMode where
  | tabular
  | json
deriving DecidableEq, Repr

structure OutState where
  findings : List Finding
  errorCount : Nat
  warningCount : Nat
deriving DecidableEq, Repr

/-- One call of outputRefMessage. -/
def emitFinding (mode : OutputMode) (st : OutState) (f : Finding) : OutState :=
  match mode with
  | .tabular =>
    if f.level = levelError then
      { st with findings := st.findings ++ [f], errorCount := st.errorCount + 1 }
    else
      { st with findings := st.findings ++ [f], warningCount := st.warningCount + 1 }
  | .json =>
    { st with findings := st.findings ++ [f] }

/-! ### The validation loop nest (verify.go lines 200-296) -/

def processRef (mode : OutputMode) (env : ValidateEnv) (gvr : GroupVersionResource)
    (child : PartialObjectMetadata) (st : OutState) (ownerRef : OwnerReference) : OutState :=
  match checkOwnerRef env gvr child ownerRef with
  | some f => emitFinding mode st f
  | none => st

def processItem (mode : OutputMode) (env : ValidateEnv) (gvr : GroupVersionResource)
    (st : OutState) (child : PartialObjectMetadata) : OutState :=
  child.ownerReferences.foldl (processRef mode env gvr child) st

def processGVR (mode : OutputMode) (env : ValidateEnv)
    (byGVR : GroupVersionResource → List PartialObjectMetadata)
    (st : OutState) (gvr : GroupVersionResource) : OutState :=
  (byGVR gvr).foldl (processItem mode env gvr) st

/-- The whole validation stage: iterate resource types in catalog order,
objects in fetch order, owner references in declaration order. -/
def runValidStage (mode : OutputMode) (env : ValidateEnv)
    (byGVR : GroupVersionResource → List PartialObjectMetadata)
    (gvrs : List GroupVersionResource) (st : OutState) : OutState :=
  gvrs.foldl (processGVR mode env byGVR) st

/-! ### Final summary (verify.go lines 298-302 and 321-326) -/

def pluralize (count : Nat) (singular plural : String) : String :=
  if count = 1 then toString count ++ " " ++ singular
  else toString count ++ " " ++ plural

/-- The line written to stderr at run end. -/
def summaryLine (errorCount warningCount : Nat) : String :=
  if errorCount > 0 ∨ warningCount > 0 then
    pluralize errorCount "error" "errors" ++ ", " ++
      pluralize warningCount "warning" "warnings" ++ "\n"
  else
    "No invalid ownerReferences found\n"

/-! ### Object Index construction (verify.go lines 127-163)

The paginated listing of one resource type is modelled as the sequence of
pages the pager delivered before either finishing or hitting a listing
error: the page function inserts each delivered item (after kind
backfill) and, on error, records the error in grListErrors keyed by the
GroupResource, increments the warning counter, and the pager aborts that
type; the error EachListItem returns is discarded, so the loop continues
with the next resource type.
-/

/-- Result of paging through one resource type: the successfully
delivered pages, then optionally the error that ended pagination. -/
structure ListResult where
  pages : List (List PartialObjectMetadata)
  err : Option String
deriving Repr

/-- The oracles the index-building loop consumes: restMapper.KindFor
(error discarded: the zero GroupVersionKind on failure) and the
metadata-client list capability. -/
structure IndexEnv where
  kindFor : GroupVersionResource → GroupVersionKind
  fetch : GroupVersionResource → ListResult

structure IndexState where
  byGVR : GroupVersionResource → List PartialObjectMetadata
  byUID : String → List PartialObjectMetadata
  grListErrors : GroupResource → Option String
  warningCount : Nat

def indexInit : IndexState :=
  ⟨fun _ => [], fun _ => [], fun _ => none, 0⟩

/-- Kind backfill (verify.go lines 155-158): only when both embedded
fields are empty and the reverse-looked-up kind is non-empty. -/
def backfill (gvk : GroupVersionKind) (item : PartialObjectMetadata) : PartialObjectMetadata :=
  if item.apiVersion = "" ∧ item.kind = "" ∧ ¬ gvkEmpty gvk then
    { item with apiVersion := gvString ⟨gvk.group, gvk.version⟩, kind := gvk.kind }
  else item

/-- The EachListItem callback (verify.go lines 150-162): backfill, then
append to the per-UID and per-type indexes. -/
def insertItem (gvk : GroupVersionKind) (gvr : GroupVersionResource)
    (st : IndexState) (raw : PartialObjectMetadata) : IndexState :=
  let item := backfill gvk raw
  { st with
    byUID := fun u => if u = item.uid then st.byUID u ++ [item] else st.byUID u,
    byGVR := fun g => if g = gvr then st.byGVR g ++ [item] else st.byGVR g }

/-- Fetching one resource type: insert every delivered item; if
pagination ended in an error, record it for the GroupResource and count
one warning notice. -/
def fetchGVR (env : IndexEnv) (st : IndexState) (gvr : GroupVersionResource) : IndexState :=
  let gvk := env.kindFor gvr
  let r := env.fetch gvr
  let st :=
    r.pages.foldl (fun s page => page.foldl (insertItem gvk gvr) s) st
  match r.err with
  | some e =>
    { st with
      grListErrors := fun gr => if gr = gvr.groupResource then some e else st.grListErrors gr,
      warningCount := st.warningCount + 1 }
  | none => st

/-- The `for _, gvr := range gvrs` fetch loop. -/
def buildIndex (env : IndexEnv) (gvrs : List GroupVersionResource)
    (st : IndexState) : IndexState :=
  gvrs.foldl (fetchGVR env) st

/-! ### Discovery failure recording (verify.go lines 77-107)

Both discovery passes run the same per-group bookkeeping over the failed
group/versions of a partial-discovery error: skip a group/version already
recorded, otherwise record the first error, count one warning and write
one notice.  Warn events are kept structured; discoveryNotice renders the
text the code writes to stderr.
-/

structure DiscoveryState where
  gvDiscoveryFailures : GroupVersion → Option String
  warningCount : Nat
  warned : List (GroupVersion × String)

def discoveryInit : DiscoveryState :=
  ⟨fun _ => none, 0, []⟩

/-- The body of `for failedGV, err := range groupDiscoveryError.Groups`. -/
def recordFailure (st : DiscoveryState) (f : GroupVersion × String) : DiscoveryState :=
  match st.gvDiscoveryFailures f.1 with
  | some _ => st
  | none =>
    { gvDiscoveryFailures := fun gv => if gv = f.1 then some f.2 else st.gvDiscoveryFailures gv,
      warningCount := st.warningCount + 1,
      warned := st.warned ++ [f] }

/-- The stderr text written for one warn event. -/
def discoveryNotice (gv : GroupVersion) (err : String) : String :=
  "warning: could not discover resources in " ++ gvString gv ++ ": " ++ err

/-- The two passes (REST-mapper discovery, then preferred-resource
discovery) processed in order. -/
def discoveryStage (pass1 pass2 : List (GroupVersion × String)) : DiscoveryState :=
  pass2.foldl recordFailure (pass1.foldl recordFailure discoveryInit)

/-! ### Sorting the resource-type set (verify.go lines 113-125) -/

/-- Go string comparison: lexicographic over the character sequence
(UTF-8 byte order and code-point order agree).  Stated over the character
list so that it evaluates by kernel reduction; strLt_iff relates it to
the String order. -/
def strLt (a b : String) : Prop :=
  a.data < b.data

instance : DecidableRel strLt := fun a b =>
  inferInstanceAs (Decidable (a.data < b.data))

theorem strLt_iff (a b : String) : strLt a b ↔ a < b :=
  Iff.symm String.lt_iff_toList_lt

/-- The `sort.Slice` less function: lexicographic on (group, version,
resource) with case-sensitive string comparison. -/
def gvrLess (a b : GroupVersionResource) : Prop :=
  if a.group ≠ b.group then strLt a.group b.group
  else if a.version ≠ b.version then strLt a.version b.version
  else strLt a.resource b.resource

instance : DecidableRel gvrLess := fun a b =>
  inferInstanceAs (Decidable
    (if a.group ≠ b.group then strLt a.group b.group
     else if a.version ≠ b.version then strLt a.version b.version
     else strLt a.resource b.resource))

/-- The ordering the sorted slice satisfies: not strictly greater. -/
def gvrLe (a b : GroupVersionResource) : Prop :=
  ¬ gvrLess b a

instance : DecidableRel gvrLe := fun a b =>
  inferInstanceAs (Decidable (¬ gvrLess b a))

/-- sort.Slice with a strict total less function produces the unique
sorted permutation; insertion sort realises it. -/
def sortGVRs (l : List GroupVersionResource) : List GroupVersionResource :=
  List.insertionSort gvrLe l

/-! ### Helper lemmas: the cross-check fold computes the per-aspect
any-candidate predicates -/

theorem crossStep_nameOk (gv : GroupVersion) (ref : OwnerReference)
    (child : PartialObjectMetadata) (st : CrossState) (o : PartialObjectMetadata) :
    (crossStep gv ref child st o).nameOk = (st.nameOk || namePred ref o) := by
  unfold crossStep namePred
  split_ifs <;> simp_all <;> split_ifs <;> simp_all

theorem crossStep_namespaceOk (gv : GroupVersion) (ref : OwnerReference)
    (child : PartialObjectMetadata) (st : CrossState) (o : PartialObjectMetadata) :
    (crossStep gv ref child st o).namespaceOk = (st.namespaceOk || nsPred child o) := by
  unfold crossStep nsPred
  split_ifs <;> simp_all <;> split_ifs <;> simp_all

theorem crossStep_groupKindOk (gv : GroupVersion) (ref : OwnerReference)
    (child : PartialObjectMetadata) (st : CrossState) (o : PartialObjectMetadata) :
    (crossStep gv ref child st o).groupKindOk = (st.groupKindOk || gkPred gv ref o) := by
  unfold crossStep gkPred
  split_ifs <;> simp_all <;> split_ifs <;> simp_all <;>
    by_cases hg : (parseGroupVersionLenient o.apiVersion).group = gv.group <;> simp_all

theorem crossFold_nameOk (gv : GroupVersion) (ref : OwnerReference)
    (child : PartialObjectMetadata) (l : List PartialObjectMetadata) (st : CrossState) :
    (l.foldl (crossStep gv ref child) st).nameOk = (st.nameOk || l.any (namePred ref)) := by
  induction l generalizing st with
  | nil => simp
  | cons o rest ih =>
    simp only [List.foldl_cons, List.any_cons, ih, crossStep_nameOk, Bool.or_assoc]

theorem crossFold_namespaceOk (gv : GroupVersion) (ref : OwnerReference)
    (child : PartialObjectMetadata) (l : List PartialObjectMetadata) (st : CrossState) :
    (l.foldl (crossStep gv ref child) st).namespaceOk =
      (st.namespaceOk || l.any (nsPred child)) := by
  induction l generalizing st with
  | nil => simp
  | cons o rest ih =>
    simp only [List.foldl_cons, List.any_cons, ih, crossStep_namespaceOk, Bool.or_assoc]

theorem crossFold_groupKindOk (gv : GroupVersion) (ref : OwnerReference)
    (child : PartialObjectMetadata) (l : List PartialObjectMetadata) (st : CrossState) :
    (l.foldl (crossStep gv ref child) st).groupKindOk =
      (st.groupKindOk || l.any (gkPred gv ref)) := by
  induction l generalizing st with
  | nil => simp
  | cons o rest ih =>
    simp only [List.foldl_cons, List.any_cons, ih, crossStep_groupKindOk, Bool.or_assoc]

theorem crossCheck_nameOk (gv : GroupVersion) (ref : OwnerReference)
    (child : PartialObjectMetadata) (l : List PartialObjectMetadata) :
    (crossCheck gv ref child l).nameOk = l.any (namePred ref) := by
  unfold crossCheck
  rw [crossFold_nameOk]
  rfl

theorem crossCheck_namespaceOk (gv : GroupVersion) (ref : OwnerReference)
    (child : PartialObjectMetadata) (l : List PartialObjectMetadata) :
    (crossCheck gv ref child l).namespaceOk = l.any (nsPred child) := by
  unfold crossCheck
  rw [crossFold_namespaceOk]
  rfl

theorem crossCheck_groupKindOk (gv : GroupVersion) (ref : OwnerReference)
    (child : PartialObjectMetadata) (l : List PartialObjectMetadata) :
    (crossCheck gv ref child l).groupKindOk = l.any (gkPred gv ref) := by
  unfold crossCheck
  rw [crossFold_groupKindOk]
  rfl

/-! ### Helper lemmas: the emitted findings list -/

theorem emitFinding_findings (mode : OutputMode) (st : OutState) (f : Finding) :
    (emitFinding mode st f).findings = st.findings ++ [f] := by
  cases mode <;> simp [emitFinding] <;> split_ifs <;> rfl

theorem processRef_findings (mode : OutputMode) (env : ValidateEnv)
    (gvr : GroupVersionResource) (child : PartialObjectMetadata)
    (st : OutState) (ownerRef : OwnerReference) :
    (processRef mode env gvr child st ownerRef).findings =
      st.findings ++ (checkOwnerRef env gvr child ownerRef).toList := by
  unfold processRef
  cases checkOwnerRef env gvr child ownerRef with
  | none => simp
  | some f => simp [emitFinding_findings]

theorem processItem_findings (mode : OutputMode) (env : ValidateEnv)
    (gvr : GroupVersionResource) (child : PartialObjectMetadata) (st : OutState) :
    (processItem mode env gvr st child).findings =
      st.findings ++ child.ownerReferences.filterMap (checkOwnerRef env gvr child) := by
  unfold processItem
  generalize child.ownerReferences = refs
  induction refs generalizing st with
  | nil => simp
  | cons r rest ih =>
    simp only [List.foldl_cons, List.filterMap_cons, ih, processRef_findings]
    cases checkOwnerRef env gvr child r <;> simp

theorem processGVR_findings (mode : OutputMode) (env : ValidateEnv)
    (byGVR : GroupVersionResource → List PartialObjectMetadata)
    (st : OutState) (gvr : GroupVersionResource) :
    (processGVR mode env byGVR st gvr).findings =
      st.findings ++
        (byGVR gvr).flatMap (fun child =>
          child.ownerReferences.filterMap (checkOwnerRef env gvr child)) := by
  unfold processGVR
  generalize byGVR gvr = items
  induction items generalizing st with
  | nil => simp
  | cons child rest ih =>
    simp only [List.foldl_cons, List.flatMap_cons, ih, processItem_findings, List.append_assoc]

theorem runValidStage_findings (mode : OutputMode) (env : ValidateEnv)
    (byGVR : GroupVersionResource → List PartialObjectMetadata)
    (gvrs : List GroupVersionResource) (st : OutState) :
    (runValidStage mode env byGVR gvrs st).findings =
      st.findings ++
        gvrs.flatMap (fun gvr =>
          (byGVR gvr).flatMap (fun child =>
            child.ownerReferences.filterMap (checkOwnerRef env gvr child))) := by
  unfold runValidStage
  induction gvrs generalizing st with
  | nil => simp
  | cons gvr rest ih =>
    simp only [List.foldl_cons, List.flatMap_cons, ih, processGVR_findings, List.append_assoc]

/-! ### Helper lemmas: order properties of the resource-type sort -/

theorem strLt_trichotomy (a b : String) : strLt a b ∨ a = b ∨ strLt b a := by
  rcases lt_trichotomy a b with h | h | h
  · exact Or.inl ((strLt_iff a b).mpr h)
  · exact Or.inr (Or.inl h)
  · exact Or.inr (Or.inr ((strLt_iff b a).mpr h))

theorem strLt_asymm {a b : String} (h1 : strLt a b) (h2 : strLt b a) : False :=
  lt_asymm ((strLt_iff a b).mp h1) ((strLt_iff b a).mp h2)

theorem strLt_trans {a b c : String} (h1 : strLt a b) (h2 : strLt b c) : strLt a c :=
  (strLt_iff a c).mpr (lt_trans ((strLt_iff a b).mp h1) ((strLt_iff b c).mp h2))

theorem strLt_irrefl (a : String) : ¬ strLt a a := fun h =>
  lt_irrefl a ((strLt_iff a a).mp h)

/-- The sort.Slice less function is the lexicographic strict order on the
(group, version, resource) triple. -/
theorem gvrLess_iff (a b : GroupVersionResource) :
    gvrLess a b ↔
      strLt a.group b.group ∨
        (a.group = b.group ∧ (strLt a.version b.version ∨
          (a.version = b.version ∧ strLt a.resource b.resource))) := by
  unfold gvrLess
  by_cases hg : a.group = b.group
  · by_cases hv : a.version = b.version
    · rw [if_neg (by simp [hg]), if_neg (by simp [hv])]
      constructor
      · intro h
        exact Or.inr ⟨hg, Or.inr ⟨hv, h⟩⟩
      · rintro (h | ⟨-, h | ⟨-, h⟩⟩)
        · exact absurd (hg ▸ h) (strLt_irrefl _)
        · exact absurd (hv ▸ h) (strLt_irrefl _)
        · exact h
    · rw [if_neg (by simp [hg]), if_pos hv]
      constructor
      · intro h
        exact Or.inr ⟨hg, Or.inl h⟩
      · rintro (h | ⟨-, h | ⟨he, h⟩⟩)
        · exact absurd (hg ▸ h) (strLt_irrefl _)
        · exact h
        · exact absurd he hv
  · rw [if_pos hg]
    constructor
    · intro h
      exact Or.inl h
    · rintro (h | ⟨he, -⟩)
      · exact h
      · exact absurd he hg

theorem gvrLess_trichotomy (a b : GroupVersionResource) :
    gvrLess a b ∨ a = b ∨ gvrLess b a := by
  by_cases hg : a.group = b.group
  · by_cases hv : a.version = b.version
    · rcases strLt_trichotomy a.resource b.resource with h | h | h
      · exact Or.inl ((gvrLess_iff a b).mpr (Or.inr ⟨hg, Or.inr ⟨hv, h⟩⟩))
      · refine Or.inr (Or.inl ?_)
        obtain ⟨ag, av, ar⟩ := a
        obtain ⟨bg, bv, br⟩ := b
        simp_all
      · exact Or.inr (Or.inr ((gvrLess_iff b a).mpr
          (Or.inr ⟨hg.symm, Or.inr ⟨hv.symm, h⟩⟩)))
    · rcases strLt_trichotomy a.version b.version with h | h | h
      · exact Or.inl ((gvrLess_iff a b).mpr (Or.inr ⟨hg, Or.inl h⟩))
      · exact absurd h hv
      · exact Or.inr (Or.inr ((gvrLess_iff b a).mpr (Or.inr ⟨hg.symm, Or.inl h⟩)))
  · rcases strLt_trichotomy a.group b.group with h | h | h
    · exact Or.inl ((gvrLess_iff a b).mpr (Or.inl h))
    · exact absurd h hg
    · exact Or.inr (Or.inr ((gvrLess_iff b a).mpr (Or.inl h)))

theorem gvrLess_asymm {a b : GroupVersionResource}
    (h1 : gvrLess a b) (h2 : gvrLess b a) : False := by
  rw [gvrLess_iff] at h1 h2
  rcases h1 with h1 | ⟨hg1, h1⟩
  · rcases h2 with h2 | ⟨hg2, h2⟩
    · exact strLt_asymm h1 h2
    · exact strLt_irrefl _ (hg2 ▸ h1)
  · rcases h2 with h2 | ⟨hg2, h2⟩
    · exact strLt_irrefl _ (hg1 ▸ h2)
    · rcases h1 with h1 | ⟨hv1, h1⟩ <;> rcases h2 with h2 | ⟨hv2, h2⟩
      · exact strLt_asymm h1 h2
      · exact strLt_irrefl _ (hv2 ▸ h1)
      · exact strLt_irrefl _ (hv1 ▸ h2)
      · exact strLt_asymm h1 h2

theorem gvrLess_trans {a b c : GroupVersionResource}
    (h1 : gvrLess a b) (h2 : gvrLess b c) : gvrLess a c := by
  rw [gvrLess_iff] at h1 h2 ⊢
  rcases h1 with h1 | ⟨hg1, h1⟩
  · rcases h2 with h2 | ⟨hg2, h2⟩
    · exact Or.inl (strLt_trans h1 h2)
    · exact Or.inl (hg2 ▸ h1)
  · rcases h2 with h2 | ⟨hg2, h2⟩
    · refine Or.inl ?_
      rw [hg1]
      exact h2
    · refine Or.inr ⟨hg1.trans hg2, ?_⟩
      rcases h1 with h1 | ⟨hv1, h1⟩
      · rcases h2 with h2 | ⟨hv2, h2⟩
        · exact Or.inl (strLt_trans h1 h2)
        · exact Or.inl (hv2 ▸ h1)
      · rcases h2 with h2 | ⟨hv2, h2⟩
        · refine Or.inl ?_
          rw [hv1]
          exact h2
        · exact Or.inr ⟨hv1.trans hv2, strLt_trans h1 h2⟩

instance : IsTotal GroupVersionResource gvrLe where
  total a b := by
    by_cases h : gvrLess b a
    · exact Or.inr (fun h2 => gvrLess_asymm h2 h)
    · exact Or.inl h

instance : IsTrans GroupVersionResource gvrLe where
  trans a b c hab hbc := by
    intro hca
    rcases gvrLess_trichotomy c b with h | h | h
    · exact hbc h
    · exact hab (h ▸ hca)
    · exact hab (gvrLess_trans h hca)

instance : IsAntisymm GroupVersionResource gvrLe where
  antisymm a b hab hba := by
    rcases gvrLess_trichotomy a b with h | h | h
    · exact absurd h hba
    · exact h
    · exact absurd h hab

/-- A nonempty string is strictly above the empty string. -/
theorem strLt_empty (s : String) (h : s ≠ "") : strLt "" s := by
  obtain ⟨data⟩ := s
  cases data with
  | nil => exact absurd rfl h
  | cons c cs => exact List.nil_lt_cons c cs

/-! ### Helper lemmas: outcome of checkOwnerRef under each check -/

theorem checkOwnerRef_parse_error (env : ValidateEnv) (gvr : GroupVersionResource)
    (child : PartialObjectMetadata) (ref : OwnerReference) (e : String)
    (h : ParseGroupVersion ref.apiVersion = .error e) :
    checkOwnerRef env gvr child ref =
      some ⟨gvr, child, ref, levelError,
        "invalid owner apiVersion " ++ ref.apiVersion ++ ": " ++ e⟩ := by
  unfold checkOwnerRef
  rw [h]

theorem checkOwnerRef_map_error_warn (env : ValidateEnv) (gvr : GroupVersionResource)
    (child : PartialObjectMetadata) (ref : OwnerReference) (gv : GroupVersion)
    (e de : String)
    (hp : ParseGroupVersion ref.apiVersion = .ok gv)
    (hm : env.restMapping ⟨gv.group, ref.kind⟩ gv.version = .error e)
    (hd : env.gvDiscoveryFailures gv = some de) :
    checkOwnerRef env gvr child ref =
      some ⟨gvr, child, ref, levelWarning,
        "failed resolving resources for " ++ ref.apiVersion ++ ": " ++ de⟩ := by
  unfold checkOwnerRef
  rw [hp]
  simp [hm, hd]

theorem checkOwnerRef_map_error_err (env : ValidateEnv) (gvr : GroupVersionResource)
    (child : PartialObjectMetadata) (ref : OwnerReference) (gv : GroupVersion)
    (e : String)
    (hp : ParseGroupVersion ref.apiVersion = .ok gv)
    (hm : env.restMapping ⟨gv.group, ref.kind⟩ gv.version = .error e)
    (hd : env.gvDiscoveryFailures gv = none) :
    checkOwnerRef env gvr child ref =
      some ⟨gvr, child, ref, levelError,
        "cannot resolve owner apiVersion/kind: " ++ e⟩ := by
  unfold checkOwnerRef
  rw [hp]
  simp [hm, hd]

theorem checkOwnerRef_scope_error (env : ValidateEnv) (gvr : GroupVersionResource)
    (child : PartialObjectMetadata) (ref : OwnerReference) (gv : GroupVersion)
    (m : RESTMapping)
    (hp : ParseGroupVersion ref.apiVersion = .ok gv)
    (hm : env.restMapping ⟨gv.group, ref.kind⟩ gv.version = .ok m)
    (hs : m.scope = RESTScopeName.namespaced ∧ child.nspace = "") :
    checkOwnerRef env gvr child ref =
      some ⟨gvr, child, ref, levelError,
        "cannot reference namespaced type as owner (apiVersion=" ++
          gvString ⟨gv.group, gv.version⟩ ++ ",kind=" ++ ref.kind ++ ")"⟩ := by
  unfold checkOwnerRef
  rw [hp]
  simp only [hm]
  rw [if_pos hs]

theorem checkOwnerRef_empty_warn (env : ValidateEnv) (gvr : GroupVersionResource)
    (child : PartialObjectMetadata) (ref : OwnerReference) (gv : GroupVersion)
    (m : RESTMapping) (le : String)
    (hp : ParseGroupVersion ref.apiVersion = .ok gv)
    (hm : env.restMapping ⟨gv.group, ref.kind⟩ gv.version = .ok m)
    (hs : ¬ (m.scope = RESTScopeName.namespaced ∧ child.nspace = ""))
    (hempty : env.byUID ref.uid = [])
    (hl : env.grListErrors m.resource.groupResource = some le) :
    checkOwnerRef env gvr child ref =
      some ⟨gvr, child, ref, levelWarning,
        "could not list parent resource " ++ grString m.resource.groupResource⟩ := by
  unfold checkOwnerRef
  rw [hp]
  simp only [hm]
  rw [if_neg hs]
  simp [hempty, hl]

theorem checkOwnerRef_empty_err (env : ValidateEnv) (gvr : GroupVersionResource)
    (child : PartialObjectMetadata) (ref : OwnerReference) (gv : GroupVersion)
    (m : RESTMapping)
    (hp : ParseGroupVersion ref.apiVersion = .ok gv)
    (hm : env.restMapping ⟨gv.group, ref.kind⟩ gv.version = .ok m)
    (hs : ¬ (m.scope = RESTScopeName.namespaced ∧ child.nspace = ""))
    (hempty : env.byUID ref.uid = [])
    (hl : env.grListErrors m.resource.groupResource = none) :
    checkOwnerRef env gvr child ref =
      some ⟨gvr, child, ref, levelError, "no object found for uid"⟩ := by
  unfold checkOwnerRef
  rw [hp]
  simp only [hm]
  rw [if_neg hs]
  simp [hempty, hl]

theorem checkOwnerRef_ns_fail (env : ValidateEnv) (gvr : GroupVersionResource)
    (child : PartialObjectMetadata) (ref : OwnerReference) (gv : GroupVersion)
    (m : RESTMapping)
    (hp : ParseGroupVersion ref.apiVersion = .ok gv)
    (hm : env.restMapping ⟨gv.group, ref.kind⟩ gv.version = .ok m)
    (hs : ¬ (m.scope = RESTScopeName.namespaced ∧ child.nspace = ""))
    (hne : env.byUID ref.uid ≠ [])
    (hns : (env.byUID ref.uid).any (nsPred child) = false) :
    checkOwnerRef env gvr child ref =
      some ⟨gvr, child, ref, levelError,
        "child namespace does not match owner namespace (" ++
          (crossCheck gv ref child (env.byUID ref.uid)).actualNamespace ++ ")"⟩ := by
  unfold checkOwnerRef
  rw [hp]
  simp only [hm]
  rw [if_neg hs, if_neg hne]
  simp [crossCheck_namespaceOk, hns]

theorem checkOwnerRef_name_fail (env : ValidateEnv) (gvr : GroupVersionResource)
    (child : PartialObjectMetadata) (ref : OwnerReference) (gv : GroupVersion)
    (m : RESTMapping)
    (hp : ParseGroupVersion ref.apiVersion = .ok gv)
    (hm : env.restMapping ⟨gv.group, ref.kind⟩ gv.version = .ok m)
    (hs : ¬ (m.scope = RESTScopeName.namespaced ∧ child.nspace = ""))
    (hne : env.byUID ref.uid ≠ [])
    (hns : (env.byUID ref.uid).any (nsPred child) = true)
    (hname : (env.byUID ref.uid).any (namePred ref) = false) :
    checkOwnerRef env gvr child ref =
      some ⟨gvr, child, ref, levelError,
        "ownerReference name (" ++ ref.name ++ ") does not match owner name (" ++
          (crossCheck gv ref child (env.byUID ref.uid)).actualName ++ ")"⟩ := by
  unfold checkOwnerRef
  rw [hp]
  simp only [hm]
  rw [if_neg hs, if_neg hne]
  simp [crossCheck_namespaceOk, crossCheck_nameOk, hns, hname]

theorem checkOwnerRef_gk_fail (env : ValidateEnv) (gvr : GroupVersionResource)
    (child : PartialObjectMetadata) (ref : OwnerReference) (gv : GroupVersion)
    (m : RESTMapping)
    (hp : ParseGroupVersion ref.apiVersion = .ok gv)
    (hm : env.restMapping ⟨gv.group, ref.kind⟩ gv.version = .ok m)
    (hs : ¬ (m.scope = RESTScopeName.namespaced ∧ child.nspace = ""))
    (hne : env.byUID ref.uid ≠ [])
    (hns : (env.byUID ref.uid).any (nsPred child) = true)
    (hname : (env.byUID ref.uid).any (namePred ref) = true)
    (hgk : (env.byUID ref.uid).any (gkPred gv ref) = false) :
    checkOwnerRef env gvr child ref =
      some ⟨gvr, child, ref, levelError,
        "ownerReference group/kind (" ++ gv.group ++ "/" ++ ref.kind ++
          ") does not match owner group/kind (" ++
          (crossCheck gv ref child (env.byUID ref.uid)).actualGVK.group ++ "/" ++
          (crossCheck gv ref child (env.byUID ref.uid)).actualGVK.kind ++ ")"⟩ := by
  unfold checkOwnerRef
  rw [hp]
  simp only [hm]
  rw [if_neg hs, if_neg hne]
  simp [crossCheck_namespaceOk, crossCheck_nameOk, crossCheck_groupKindOk, hns, hname, hgk]

theorem checkOwnerRef_valid (env : ValidateEnv) (gvr : GroupVersionResource)
    (child : PartialObjectMetadata) (ref : OwnerReference) (gv : GroupVersion)
    (m : RESTMapping)
    (hp : ParseGroupVersion ref.apiVersion = .ok gv)
    (hm : env.restMapping ⟨gv.group, ref.kind⟩ gv.version = .ok m)
    (hs : ¬ (m.scope = RESTScopeName.namespaced ∧ child.nspace = ""))
    (hne : env.byUID ref.uid ≠ [])
    (hns : (env.byUID ref.uid).any (nsPred child) = true)
    (hname : (env.byUID ref.uid).any (namePred ref) = true)
    (hgk : (env.byUID ref.uid).any (gkPred gv ref) = true) :
    checkOwnerRef env gvr child ref = none := by
  unfold checkOwnerRef
  rw [hp]
  simp only [hm]
  rw [if_neg hs, if_neg hne]
  simp [crossCheck_namespaceOk, crossCheck_nameOk, crossCheck_groupKindOk, hns, hname, hgk]

/-! ### Helper lemmas: discovery failure recording -/

theorem recordFailure_map_some (st : DiscoveryState) (f : GroupVersion × String)
    (gv : GroupVersion) (e : String) (h : st.gvDiscoveryFailures gv = some e) :
    (recordFailure st f).gvDiscoveryFailures gv = some e := by
  unfold recordFailure
  cases hf : st.gvDiscoveryFailures f.1 with
  | some _ => exact h
  | none =>
    by_cases hgv : gv = f.1
    · rw [hgv] at h
      rw [h] at hf
      cases hf
    · simp [hgv, h]

theorem discoveryFold_map_some (l : List (GroupVersion × String)) (st : DiscoveryState)
    (gv : GroupVersion) (e : String) (h : st.gvDiscoveryFailures gv = some e) :
    (l.foldl recordFailure st).gvDiscoveryFailures gv = some e := by
  induction l generalizing st with
  | nil => exact h
  | cons f rest ih => exact ih _ (recordFailure_map_some st f gv e h)

theorem discoveryFold_map_none (l : List (GroupVersion × String)) (st : DiscoveryState)
    (gv : GroupVersion) (h : st.gvDiscoveryFailures gv = none) :
    (l.foldl recordFailure st).gvDiscoveryFailures gv =
      (l.find? (fun f => decide (f.1 = gv))).map Prod.snd := by
  induction l generalizing st with
  | nil => exact h
  | cons f rest ih =>
    by_cases hgv : f.1 = gv
    · have hrec : (recordFailure st f).gvDiscoveryFailures gv = some f.2 := by
        simp [recordFailure, hgv, h]
      rw [List.foldl_cons, discoveryFold_map_some rest _ gv f.2 hrec,
        List.find?_cons_of_pos _ (by simp [hgv])]
      rfl
    · have hrec : (recordFailure st f).gvDiscoveryFailures gv = none := by
        cases hf : st.gvDiscoveryFailures f.1 with
        | some _ => simp [recordFailure, hf, h]
        | none => simp [recordFailure, hf, h, Ne.symm hgv]
      rw [List.foldl_cons, ih _ hrec, List.find?_cons_of_neg _ (by simp [hgv])]

/-- Number of warn events recorded for one group/version. -/
def warnedFor (st : DiscoveryState) (gv : GroupVersion) : Nat :=
  st.warned.countP (fun w => decide (w.1 = gv))

theorem recordFailure_warnedFor (st : DiscoveryState) (f : GroupVersion × String)
    (gv : GroupVersion) :
    warnedFor (recordFailure st f) gv =
      warnedFor st gv +
        (if st.gvDiscoveryFailures f.1 = none ∧ f.1 = gv then 1 else 0) := by
  unfold recordFailure warnedFor
  cases hf : st.gvDiscoveryFailures f.1 with
  | some _ => simp [hf]
  | none =>
    by_cases hgv : f.1 = gv
    · simp [hf, hgv, List.countP_append]
    · simp [hf, hgv, List.countP_append]

theorem discoveryFold_warnedFor_some (l : List (GroupVersion × String))
    (st : DiscoveryState) (gv : GroupVersion) (e : String)
    (h : st.gvDiscoveryFailures gv = some e) :
    warnedFor (l.foldl recordFailure st) gv = warnedFor st gv := by
  induction l generalizing st with
  | nil => rfl
  | cons f rest ih =>
    rw [List.foldl_cons, ih _ (recordFailure_map_some st f gv e h),
      recordFailure_warnedFor]
    by_cases hgv : f.1 = gv
    · simp [hgv, h]
    · simp [hgv]

theorem discoveryFold_warnedFor_none (l : List (GroupVersion × String))
    (st : DiscoveryState) (gv : GroupVersion)
    (h : st.gvDiscoveryFailures gv = none) :
    warnedFor (l.foldl recordFailure st) gv =
      warnedFor st gv + (if gv ∈ l.map Prod.fst then 1 else 0) := by
  induction l generalizing st with
  | nil => simp
  | cons f rest ih =>
    rw [List.foldl_cons]
    by_cases hgv : f.1 = gv
    · have hrec : (recordFailure st f).gvDiscoveryFailures gv = some f.2 := by
        simp [recordFailure, hgv, h]
      rw [discoveryFold_warnedFor_some rest _ gv f.2 hrec, recordFailure_warnedFor]
      simp [hgv, h]
    · have hrec : (recordFailure st f).gvDiscoveryFailures gv = none := by
        cases hf : st.gvDiscoveryFailures f.1 with
        | some _ => simp [recordFailure, hf, h]
        | none => simp [recordFailure, hf, h, Ne.symm hgv]
      rw [ih _ hrec, recordFailure_warnedFor]
      have hmem : (gv ∈ f.1 :: List.map Prod.fst rest) ↔ gv ∈ List.map Prod.fst rest := by
        simp [List.mem_cons, Ne.symm hgv]
      have hif : (if gv ∈ f.1 :: List.map Prod.fst rest then 1 else 0) =
          (if gv ∈ List.map Prod.fst rest then 1 else 0) := if_congr hmem rfl rfl
      simp [hgv, hif]

theorem discoveryFold_count_eq_length (l : List (GroupVersion × String))
    (st : DiscoveryState) (h : st.warningCount = st.warned.length) :
    (l.foldl recordFailure st).warningCount =
      (l.foldl recordFailure st).warned.length := by
  induction l generalizing st with
  | nil => exact h
  | cons f rest ih =>
    refine ih _ ?_
    unfold recordFailure
    cases hf : st.gvDiscoveryFailures f.1 with
    | some _ => exact h
    | none => simp [h]

/-! ### Helper lemmas: the Object Index build -/

theorem backfill_uid (gvk : GroupVersionKind) (raw : PartialObjectMetadata) :
    (backfill gvk raw).uid = raw.uid := by
  unfold backfill
  split_ifs <;> rfl

theorem insertItem_byGVR_self (gvk : GroupVersionKind) (gvr : GroupVersionResource)
    (st : IndexState) (raw : PartialObjectMetadata) :
    (insertItem gvk gvr st raw).byGVR gvr = st.byGVR gvr ++ [backfill gvk raw] := by
  simp [insertItem]

theorem insertItem_byGVR_other (gvk : GroupVersionKind) (gvr g : GroupVersionResource)
    (st : IndexState) (raw : PartialObjectMetadata) (h : g ≠ gvr) :
    (insertItem gvk gvr st raw).byGVR g = st.byGVR g := by
  simp [insertItem, h]

theorem insertItem_byUID_self (gvk : GroupVersionKind) (gvr : GroupVersionResource)
    (st : IndexState) (raw : PartialObjectMetadata) :
    (insertItem gvk gvr st raw).byUID raw.uid =
      st.byUID raw.uid ++ [backfill gvk raw] := by
  simp [insertItem, backfill_uid]

theorem insertItem_errors (gvk : GroupVersionKind) (gvr : GroupVersionResource)
    (st : IndexState) (raw : PartialObjectMetadata) :
    (insertItem gvk gvr st raw).grListErrors = st.grListErrors ∧
      (insertItem gvk gvr st raw).warningCount = st.warningCount := by
  exact ⟨rfl, rfl⟩

theorem itemsFold_byGVR_self (gvk : GroupVersionKind) (gvr : GroupVersionResource)
    (items : List PartialObjectMetadata) (st : IndexState) :
    ((items.foldl (insertItem gvk gvr) st).byGVR gvr) =
      st.byGVR gvr ++ items.map (backfill gvk) := by
  induction items generalizing st with
  | nil => simp
  | cons raw rest ih =>
    rw [List.foldl_cons, ih, insertItem_byGVR_self]
    simp

theorem itemsFold_byGVR_other (gvk : GroupVersionKind) (gvr g : GroupVersionResource)
    (items : List PartialObjectMetadata) (st : IndexState) (h : g ≠ gvr) :
    ((items.foldl (insertItem gvk gvr) st).byGVR g) = st.byGVR g := by
  induction items generalizing st with
  | nil => rfl
  | cons raw rest ih => rw [List.foldl_cons, ih, insertItem_byGVR_other _ _ _ _ _ h]

theorem pagesFold_byGVR_self (gvk : GroupVersionKind) (gvr : GroupVersionResource)
    (pages : List (List PartialObjectMetadata)) (st : IndexState) :
    ((pages.foldl (fun s page => page.foldl (insertItem gvk gvr) s) st).byGVR gvr) =
      st.byGVR gvr ++ pages.flatten.map (backfill gvk) := by
  induction pages generalizing st with
  | nil => simp
  | cons page rest ih =>
    rw [List.foldl_cons, ih, itemsFold_byGVR_self]
    simp

theorem pagesFold_byGVR_other (gvk : GroupVersionKind) (gvr g : GroupVersionResource)
    (pages : List (List PartialObjectMetadata)) (st : IndexState) (h : g ≠ gvr) :
    ((pages.foldl (fun s page => page.foldl (insertItem gvk gvr) s) st).byGVR g) =
      st.byGVR g := by
  induction pages generalizing st with
  | nil => rfl
  | cons page rest ih => rw [List.foldl_cons, ih, itemsFold_byGVR_other _ _ _ _ _ h]

theorem itemsFold_errors (gvk : GroupVersionKind) (gvr : GroupVersionResource)
    (items : List PartialObjectMetadata) (st : IndexState) :
    (items.foldl (insertItem gvk gvr) st).grListErrors = st.grListErrors ∧
      (items.foldl (insertItem gvk gvr) st).warningCount = st.warningCount := by
  induction items generalizing st with
  | nil => exact ⟨rfl, rfl⟩
  | cons raw rest ih => exact ih _

theorem pagesFold_errors (gvk : GroupVersionKind) (gvr : GroupVersionResource)
    (pages : List (List PartialObjectMetadata)) (st : IndexState) :
    ((pages.foldl (fun s page => page.foldl (insertItem gvk gvr) s) st).grListErrors =
        st.grListErrors) ∧
      ((pages.foldl (fun s page => page.foldl (insertItem gvk gvr) s) st).warningCount =
        st.warningCount) := by
  induction pages generalizing st with
  | nil => exact ⟨rfl, rfl⟩
  | cons page rest ih =>
    rw [List.foldl_cons]
    exact ⟨((ih _).1).trans (itemsFold_errors gvk gvr page st).1,
      ((ih _).2).trans (itemsFold_errors gvk gvr page st).2⟩

theorem fetchGVR_byGVR_self (env : IndexEnv) (st : IndexState)
    (gvr : GroupVersionResource) :
    (fetchGVR env st gvr).byGVR gvr =
      st.byGVR gvr ++ (env.fetch gvr).pages.flatten.map (backfill (env.kindFor gvr)) := by
  unfold fetchGVR
  cases h : (env.fetch gvr).err with
  | some e =>
    simp only [h]
    exact pagesFold_byGVR_self _ _ _ _
  | none =>
    simp only [h]
    exact pagesFold_byGVR_self _ _ _ _

theorem fetchGVR_byGVR_other (env : IndexEnv) (st : IndexState)
    (gvr g : GroupVersionResource) (h : g ≠ gvr) :
    (fetchGVR env st gvr).byGVR g = st.byGVR g := by
  unfold fetchGVR
  cases he : (env.fetch gvr).err with
  | some e =>
    simp only [he]
    exact pagesFold_byGVR_other _ _ _ _ _ h
  | none =>
    simp only [he]
    exact pagesFold_byGVR_other _ _ _ _ _ h

theorem fetchGVR_listErrors_fail (env : IndexEnv) (st : IndexState)
    (gvr : GroupVersionResource) (e : String) (h : (env.fetch gvr).err = some e) :
    (fetchGVR env st gvr).grListErrors gvr.groupResource = some e := by
  unfold fetchGVR
  simp only [h]
  simp

theorem fetchGVR_warningCount_fail (env : IndexEnv) (st : IndexState)
    (gvr : GroupVersionResource) (e : String) (h : (env.fetch gvr).err = some e) :
    (fetchGVR env st gvr).warningCount = st.warningCount + 1 := by
  unfold fetchGVR
  simp only [h]
  rw [(pagesFold_errors (env.kindFor gvr) gvr (env.fetch gvr).pages st).2]

/-! ### Concrete fixtures (the end-to-end scenarios of the specification) -/

def nodesGVR : GroupVersionResource := ⟨"", "v1", "nodes"⟩

def podsGVR : GroupVersionResource := ⟨"", "v1", "pods"⟩

def cNode1 : PartialObjectMetadata := ⟨"v1", "Node", "", "node1", "node1uid", []⟩

def refGood : OwnerReference := ⟨"v1", "Node", "node1", "node1uid"⟩

def refBad : OwnerReference := ⟨"a/b/c", "Node", "node1", "node1uid"⟩

def cPod1 : PartialObjectMetadata := ⟨"v1", "Pod", "ns1", "pod1", "pod1uid", [refGood]⟩

/-- REST mapper knowing the core v1 Node (cluster-scoped) and Pod
(namespaced) kinds. -/
def cMapper : GroupKind → String → Except String RESTMapping := fun gk v =>
  if gk = (⟨"", "Node"⟩ : GroupKind) ∧ v = "v1" then
    .ok ⟨nodesGVR, RESTScopeName.cluster⟩
  else if gk = (⟨"", "Pod"⟩ : GroupKind) ∧ v = "v1" then
    .ok ⟨podsGVR, RESTScopeName.namespaced⟩
  else .error "no matches for kind"

def envA : ValidateEnv :=
  ⟨cMapper, fun _ => none, fun _ => none,
    fun u => if u = "node1uid" then [cNode1] else []⟩

/-! ### C1 -/

/-- C1: for every owner reference the checks run in the fixed order and
stop at the first that fires, emitting at most one finding per owner
reference (the Option result of checkOwnerRef).  In particular an owner
reference whose apiVersion cannot be parsed yields exactly the one
parse-failure Error finding no matter what the mapper, failure maps or
indexes hold (no further check runs), and a valid owner reference whose
referenced object exists in the UID bucket with matching name, compatible
namespace and compatible kind/group yields no finding. -/
theorem c1_ordered_checks (env : ValidateEnv) (gvr : GroupVersionResource)
    (child : PartialObjectMetadata) (ref : OwnerReference) :
    (∀ e, ParseGroupVersion ref.apiVersion = .error e →
      checkOwnerRef env gvr child ref =
        some ⟨gvr, child, ref, levelError,
          "invalid owner apiVersion " ++ ref.apiVersion ++ ": " ++ e⟩)
    ∧ (∀ gv m, ParseGroupVersion ref.apiVersion = .ok gv →
        env.restMapping ⟨gv.group, ref.kind⟩ gv.version = .ok m →
        ¬ (m.scope = RESTScopeName.namespaced ∧ child.nspace = "") →
        (∃ o, o ∈ env.byUID ref.uid ∧ namePred ref o = true ∧
          nsPred child o = true ∧ gkPred gv ref o = true) →
        checkOwnerRef env gvr child ref = none) := by
  constructor
  · intro e h
    exact checkOwnerRef_parse_error env gvr child ref e h
  · rintro gv m hp hm hs ⟨o, ho, hn, hns, hgk⟩
    exact checkOwnerRef_valid env gvr child ref gv m hp hm hs
      (List.ne_nil_of_mem ho)
      (List.any_eq_true.mpr ⟨o, ho, hns⟩)
      (List.any_eq_true.mpr ⟨o, ho, hn⟩)
      (List.any_eq_true.mpr ⟨o, ho, hgk⟩)

theorem c1_ordered_checks_witness :
    checkOwnerRef envA podsGVR cPod1 refBad =
      some ⟨podsGVR, cPod1, refBad, levelError,
        "invalid owner apiVersion a/b/c: unexpected GroupVersion string: a/b/c"⟩
    ∧ checkOwnerRef envA podsGVR cPod1 refGood = none := by
  constructor
  · exact (c1_ordered_checks envA podsGVR cPod1 refBad).1
      "unexpected GroupVersion string: a/b/c" rfl
  · exact (c1_ordered_checks envA podsGVR cPod1 refGood).2 ⟨"", "v1"⟩
      ⟨nodesGVR, RESTScopeName.cluster⟩ rfl rfl (by decide)
      ⟨cNode1, by decide, by decide, by decide, by decide⟩

/-! ### C2 -/

/-- C2: in the multi-candidate cross-check each of the three aspects
(name, namespace, kind/group) is computed independently over the whole
UID bucket: the fold of the source loop equals a per-aspect
any-candidate-satisfies test, so an aspect can be satisfied by different
candidates.  When aspects fail across all candidates exactly one Error is
emitted, namespace mismatch first, then name mismatch, then kind/group
mismatch. -/
theorem c2_aspects_any_priority (env : ValidateEnv) (gvr : GroupVersionResource)
    (child : PartialObjectMetadata) (ref : OwnerReference) (gv : GroupVersion)
    (m : RESTMapping)
    (hp : ParseGroupVersion ref.apiVersion = .ok gv)
    (hm : env.restMapping ⟨gv.group, ref.kind⟩ gv.version = .ok m)
    (hs : ¬ (m.scope = RESTScopeName.namespaced ∧ child.nspace = ""))
    (hne : env.byUID ref.uid ≠ []) :
    ((crossCheck gv ref child (env.byUID ref.uid)).namespaceOk =
      (env.byUID ref.uid).any (nsPred child))
    ∧ ((crossCheck gv ref child (env.byUID ref.uid)).nameOk =
      (env.byUID ref.uid).any (namePred ref))
    ∧ ((crossCheck gv ref child (env.byUID ref.uid)).groupKindOk =
      (env.byUID ref.uid).any (gkPred gv ref))
    ∧ ((env.byUID ref.uid).any (nsPred child) = false →
      checkOwnerRef env gvr child ref =
        some ⟨gvr, child, ref, levelError,
          "child namespace does not match owner namespace (" ++
            (crossCheck gv ref child (env.byUID ref.uid)).actualNamespace ++ ")"⟩)
    ∧ ((env.byUID ref.uid).any (nsPred child) = true →
      (env.byUID ref.uid).any (namePred ref) = false →
      checkOwnerRef env gvr child ref =
        some ⟨gvr, child, ref, levelError,
          "ownerReference name (" ++ ref.name ++ ") does not match owner name (" ++
            (crossCheck gv ref child (env.byUID ref.uid)).actualName ++ ")"⟩)
    ∧ ((env.byUID ref.uid).any (nsPred child) = true →
      (env.byUID ref.uid).any (namePred ref) = true →
      (env.byUID ref.uid).any (gkPred gv ref) = false →
      checkOwnerRef env gvr child ref =
        some ⟨gvr, child, ref, levelError,
          "ownerReference group/kind (" ++ gv.group ++ "/" ++ ref.kind ++
            ") does not match owner group/kind (" ++
            (crossCheck gv ref child (env.byUID ref.uid)).actualGVK.group ++ "/" ++
            (crossCheck gv ref child (env.byUID ref.uid)).actualGVK.kind ++ ")"⟩) := by
  refine ⟨crossCheck_namespaceOk gv ref child _, crossCheck_nameOk gv ref child _,
    crossCheck_groupKindOk gv ref child _, ?_, ?_, ?_⟩
  · intro hns
    exact checkOwnerRef_ns_fail env gvr child ref gv m hp hm hs hne hns
  · intro hns hname
    exact checkOwnerRef_name_fail env gvr child ref gv m hp hm hs hne hns hname
  · intro hns hname hgk
    exact checkOwnerRef_gk_fail env gvr child ref gv m hp hm hs hne hns hname hgk

/-- The cross-check witness bucket: the name aspect is satisfied only by
the first candidate, the namespace aspect only by the second, the
kind/group aspect by neither. -/
def cOwnerX : PartialObjectMetadata := ⟨"v1", "Other", "ns2", "node1", "uidC", []⟩

def cOwnerY : PartialObjectMetadata := ⟨"v1", "Zed", "", "nodex", "uidC", []⟩

def refC : OwnerReference := ⟨"v1", "Node", "node1", "uidC"⟩

def cPodC : PartialObjectMetadata := ⟨"v1", "Pod", "ns1", "podC", "podCuid", [refC]⟩

def envC : ValidateEnv :=
  ⟨cMapper, fun _ => none, fun _ => none,
    fun u => if u = "uidC" then [cOwnerX, cOwnerY] else []⟩

theorem c2_aspects_any_priority_witness :
    checkOwnerRef envC podsGVR cPodC refC =
      some ⟨podsGVR, cPodC, refC, levelError,
        "ownerReference group/kind (/Node) does not match owner group/kind (/Zed)"⟩ := by
  exact (c2_aspects_any_priority envC podsGVR cPodC refC ⟨"", "v1"⟩
      ⟨nodesGVR, RESTScopeName.cluster⟩ rfl rfl (by decide) (by decide)).2.2.2.2.2
    (by decide) (by decide) (by decide)

/-! ### C4 -/

/-- C4: failure to verify is downgraded to Warning.  When kind resolution
fails, a recorded discovery failure for the parsed owner group/version
turns the finding into a Warning (failed resolving resources), otherwise
it is an Error; when the UID bucket is empty, a recorded list failure for
the resolved GroupResource turns the finding into a Warning (could not
list parent resource), otherwise it is the Error no object found for
uid. -/
theorem c4_downgrade_warnings (env : ValidateEnv) (gvr : GroupVersionResource)
    (child : PartialObjectMetadata) (ref : OwnerReference) (gv : GroupVersion)
    (hp : ParseGroupVersion ref.apiVersion = .ok gv) :
    (∀ e de, env.restMapping ⟨gv.group, ref.kind⟩ gv.version = .error e →
      env.gvDiscoveryFailures gv = some de →
      checkOwnerRef env gvr child ref =
        some ⟨gvr, child, ref, levelWarning,
          "failed resolving resources for " ++ ref.apiVersion ++ ": " ++ de⟩)
    ∧ (∀ e, env.restMapping ⟨gv.group, ref.kind⟩ gv.version = .error e →
      env.gvDiscoveryFailures gv = none →
      checkOwnerRef env gvr child ref =
        some ⟨gvr, child, ref, levelError,
          "cannot resolve owner apiVersion/kind: " ++ e⟩)
    ∧ (∀ m le, env.restMapping ⟨gv.group, ref.kind⟩ gv.version = .ok m →
      ¬ (m.scope = RESTScopeName.namespaced ∧ child.nspace = "") →
      env.byUID ref.uid = [] →
      env.grListErrors m.resource.groupResource = some le →
      checkOwnerRef env gvr child ref =
        some ⟨gvr, child, ref, levelWarning,
          "could not list parent resource " ++ grString m.resource.groupResource⟩)
    ∧ (∀ m, env.restMapping ⟨gv.group, ref.kind⟩ gv.version = .ok m →
      ¬ (m.scope = RESTScopeName.namespaced ∧ child.nspace = "") →
      env.byUID ref.uid = [] →
      env.grListErrors m.resource.groupResource = none →
      checkOwnerRef env gvr child ref =
        some ⟨gvr, child, ref, levelError, "no object found for uid"⟩) := by
  refine ⟨?_, ?_, ?_, ?_⟩
  · intro e de hm hd
    exact checkOwnerRef_map_error_warn env gvr child ref gv e de hp hm hd
  · intro e hm hd
    exact checkOwnerRef_map_error_err env gvr child ref gv e hp hm hd
  · intro m le hm hs hempty hl
    exact checkOwnerRef_empty_warn env gvr child ref gv m le hp hm hs hempty hl
  · intro m hm hs hempty hl
    exact checkOwnerRef_empty_err env gvr child ref gv m hp hm hs hempty hl

def refV2 : OwnerReference := ⟨"v2", "Node", "node1", "node1uid"⟩

/-- Discovery of group/version v2 failed (the mapper has no entry and a
DiscoveryFailure is recorded). -/
def envD1 : ValidateEnv :=
  ⟨cMapper, fun gv => if gv = (⟨"", "v2"⟩ : GroupVersion) then some "dfail" else none,
    fun _ => none, fun _ => []⟩

/-- No discovery failure recorded: the same unresolvable kind is an
Error. -/
def envD2 : ValidateEnv := ⟨cMapper, fun _ => none, fun _ => none, fun _ => []⟩

/-- Listing nodes failed (a ListFailure is recorded) and the owner UID
bucket is empty. -/
def envD3 : ValidateEnv :=
  ⟨cMapper, fun _ => none,
    fun gr => if gr = (⟨"", "nodes"⟩ : GroupResource) then some "lfail" else none,
    fun _ => []⟩

theorem c4_downgrade_warnings_witness :
    checkOwnerRef envD1 podsGVR cPod1 refV2 =
      some ⟨podsGVR, cPod1, refV2, levelWarning,
        "failed resolving resources for v2: dfail"⟩
    ∧ checkOwnerRef envD2 podsGVR cPod1 refV2 =
      some ⟨podsGVR, cPod1, refV2, levelError,
        "cannot resolve owner apiVersion/kind: no matches for kind"⟩
    ∧ checkOwnerRef envD3 podsGVR cPod1 refGood =
      some ⟨podsGVR, cPod1, refGood, levelWarning,
        "could not list parent resource nodes"⟩
    ∧ checkOwnerRef envD2 podsGVR cPod1 refGood =
      some ⟨podsGVR, cPod1, refGood, levelError, "no object found for uid"⟩ := by
  refine ⟨?_, ?_, ?_, ?_⟩
  · exact (c4_downgrade_warnings envD1 podsGVR cPod1 refV2 ⟨"", "v2"⟩ rfl).1
      "no matches for kind" "dfail" rfl rfl
  · exact (c4_downgrade_warnings envD2 podsGVR cPod1 refV2 ⟨"", "v2"⟩ rfl).2.1
      "no matches for kind" rfl rfl
  · exact (c4_downgrade_warnings envD3 podsGVR cPod1 refGood ⟨"", "v1"⟩ rfl).2.2.1
      ⟨nodesGVR, RESTScopeName.cluster⟩ "lfail" rfl (by decide) rfl rfl
  · exact (c4_downgrade_warnings envD2 podsGVR cPod1 refGood ⟨"", "v1"⟩ rfl).2.2.2
      ⟨nodesGVR, RESTScopeName.cluster⟩ rfl (by decide) rfl rfl

/-! ### C5 -/

/-- C5: a candidate satisfies the kind/group aspect exactly when its
apiVersion or kind is empty, or its leniently parsed group equals the
parsed owner group and its kind equals the reference kind with
lowercasing applied only on the candidate side; the fold of the source
loop computes exactly this predicate over the bucket, and a bucket
holding one candidate with empty apiVersion/kind and one full matching
candidate validates with no finding. -/
theorem c5_groupkind_aspect :
    (∀ (gv : GroupVersion) (ref : OwnerReference) (child : PartialObjectMetadata)
      (owners : List PartialObjectMetadata),
      (crossCheck gv ref child owners).groupKindOk = owners.any (gkPred gv ref))
    ∧ (∀ (gv : GroupVersion) (ref : OwnerReference) (o : PartialObjectMetadata),
      gkPred gv ref o = true ↔
        ((o.apiVersion = "" ∨ o.kind = "") ∨
          ((parseGroupVersionLenient o.apiVersion).group = gv.group ∧
            (o.kind = ref.kind ∨ toLowerStr o.kind = ref.kind))))
    ∧ (∀ (env : ValidateEnv) (gvr : GroupVersionResource)
      (child : PartialObjectMetadata) (ref : OwnerReference) (gv : GroupVersion)
      (m : RESTMapping) (o1 o2 : PartialObjectMetadata),
      ParseGroupVersion ref.apiVersion = .ok gv →
      env.restMapping ⟨gv.group, ref.kind⟩ gv.version = .ok m →
      ¬ (m.scope = RESTScopeName.namespaced ∧ child.nspace = "") →
      env.byUID ref.uid = [o1, o2] →
      o1.apiVersion = "" → o1.kind = "" →
      namePred ref o2 = true → nsPred child o2 = true → gkPred gv ref o2 = true →
      checkOwnerRef env gvr child ref = none) := by
  refine ⟨fun gv ref child owners => crossCheck_groupKindOk gv ref child owners, ?_, ?_⟩
  · intro gv ref o
    simp [gkPred, Bool.or_eq_true, Bool.and_eq_true, decide_eq_true_eq]
  · intro env gvr child ref gv m o1 o2 hp hm hs heq ho1a ho1k hn2 hns2 hgk2
    have hne : env.byUID ref.uid ≠ [] := by
      rw [heq]
      simp
    have hmem2 : o2 ∈ env.byUID ref.uid := by
      rw [heq]
      simp
    exact checkOwnerRef_valid env gvr child ref gv m hp hm hs hne
      (List.any_eq_true.mpr ⟨o2, hmem2, hns2⟩)
      (List.any_eq_true.mpr ⟨o2, hmem2, hn2⟩)
      (List.any_eq_true.mpr ⟨o2, hmem2, hgk2⟩)

/-- A UID bucket holding a partial-metadata representation next to the
full one. -/
def cNodePartial : PartialObjectMetadata := ⟨"", "", "", "nodep", "node1uid", []⟩

def envE : ValidateEnv :=
  ⟨cMapper, fun _ => none, fun _ => none,
    fun u => if u = "node1uid" then [cNodePartial, cNode1] else []⟩

theorem c5_groupkind_aspect_witness :
    checkOwnerRef envE podsGVR cPod1 refGood = none := by
  exact c5_groupkind_aspect.2.2 envE podsGVR cPod1 refGood ⟨"", "v1"⟩
    ⟨nodesGVR, RESTScopeName.cluster⟩ cNodePartial cNode1 rfl rfl (by decide) rfl
    rfl rfl (by decide) (by decide) (by decide)

/-! ### C6 -/

/-- C6: the resource-type set is sorted by the lexicographic
(group, version, resource) ascending order of case-sensitive string
comparison; the result is a sorted permutation of the input, empty-group
entries come first, the sorted output is the same for any enumeration
order of the set, and the findings of the validation stage appear in
catalog order, then fetch order within a type, then declaration order
within an object. -/
theorem c6_sort_and_output_order (l : List GroupVersionResource) :
    (∀ a b : GroupVersionResource, gvrLess a b ↔
      strLt a.group b.group ∨
        (a.group = b.group ∧ (strLt a.version b.version ∨
          (a.version = b.version ∧ strLt a.resource b.resource))))
    ∧ List.Sorted gvrLe (sortGVRs l)
    ∧ (sortGVRs l).Perm l
    ∧ List.Pairwise (fun a b => b.group = "" → a.group = "") (sortGVRs l)
    ∧ (∀ l', l.Perm l' → sortGVRs l = sortGVRs l')
    ∧ (∀ (mode : OutputMode) (env : ValidateEnv)
      (byGVR : GroupVersionResource → List PartialObjectMetadata) (st : OutState),
      (runValidStage mode env byGVR (sortGVRs l) st).findings =
        st.findings ++
          (sortGVRs l).flatMap (fun gvr =>
            (byGVR gvr).flatMap (fun child =>
              child.ownerReferences.filterMap (checkOwnerRef env gvr child)))) := by
  refine ⟨gvrLess_iff, List.sorted_insertionSort gvrLe l,
    List.perm_insertionSort gvrLe l, ?_, ?_, ?_⟩
  · refine (List.sorted_insertionSort gvrLe l).imp ?_
    intro a b hab hb
    by_contra ha
    apply hab
    rw [gvrLess_iff]
    refine Or.inl ?_
    rw [hb]
    exact strLt_empty a.group ha
  · intro l' hperm
    exact List.eq_of_perm_of_sorted
      ((List.perm_insertionSort gvrLe l).trans
        (hperm.trans (List.perm_insertionSort gvrLe l').symm))
      (List.sorted_insertionSort gvrLe l) (List.sorted_insertionSort gvrLe l')
  · intro mode env byGVR st
    exact runValidStage_findings mode env byGVR (sortGVRs l) st

theorem c6_sort_and_output_order_witness :
    sortGVRs [podsGVR, nodesGVR] = sortGVRs [nodesGVR, podsGVR] :=
  (c6_sort_and_output_order [podsGVR, nodesGVR]).2.2.2.2.1 [nodesGVR, podsGVR]
    (List.Perm.swap nodesGVR podsGVR [])

/-! ### C7 -/

/-- The fetch oracle of the counterexample: one page with one pod is
delivered, then pagination fails. -/
def c7Obj : PartialObjectMetadata := ⟨"v1", "Pod", "ns1", "pod1", "u7", []⟩

def c7Env : IndexEnv :=
  ⟨fun _ => ⟨"", "v1", "Pod"⟩, fun _ => ⟨[[c7Obj]], some "boom"⟩⟩

/-- C7 as stated is false: a resource type whose paginated listing fails
after a delivered page records the ListFailure but keeps the already
inserted objects, so the per-type bucket is not empty. -/
theorem c7_zero_objects_counterexample :
    (buildIndex c7Env [podsGVR] indexInit).grListErrors ⟨"", "pods"⟩ = some "boom"
    ∧ (buildIndex c7Env [podsGVR] indexInit).byGVR podsGVR ≠ [] := by
  constructor
  · decide
  · decide

/-- C7 (amended): for every resource type whose listing fails, the
ListFailure is recorded for that type GroupResource and one warning
notice is counted; the objects inserted for the type are exactly the
items of the pages delivered before the failure (zero when the failure
precedes the first page), no further objects are inserted; other types
are unaffected and the scan continues with the next resource type (no
fetch failure is fatal). -/
theorem c7_list_failure_scan_continues (env : IndexEnv) (st : IndexState)
    (gvr : GroupVersionResource) (e : String)
    (h : (env.fetch gvr).err = some e) :
    (fetchGVR env st gvr).grListErrors gvr.groupResource = some e
    ∧ (fetchGVR env st gvr).byGVR gvr =
      st.byGVR gvr ++ (env.fetch gvr).pages.flatten.map (backfill (env.kindFor gvr))
    ∧ (fetchGVR env st gvr).warningCount = st.warningCount + 1
    ∧ (∀ g, g ≠ gvr → (fetchGVR env st gvr).byGVR g = st.byGVR g)
    ∧ (∀ rest, buildIndex env (gvr :: rest) st =
        buildIndex env rest (fetchGVR env st gvr)) := by
  refine ⟨fetchGVR_listErrors_fail env st gvr e h,
    fetchGVR_byGVR_self env st gvr,
    fetchGVR_warningCount_fail env st gvr e h,
    fun g hg => fetchGVR_byGVR_other env st gvr g hg,
    fun rest => rfl⟩

theorem c7_list_failure_scan_continues_witness :
    (fetchGVR c7Env indexInit podsGVR).grListErrors ⟨"", "pods"⟩ = some "boom"
    ∧ (fetchGVR c7Env indexInit podsGVR).byGVR podsGVR = [c7Obj]
    ∧ (fetchGVR c7Env indexInit podsGVR).warningCount = 1
    ∧ (fetchGVR c7Env indexInit podsGVR).byGVR nodesGVR = [] := by
  refine ⟨(c7_list_failure_scan_continues c7Env indexInit podsGVR "boom" rfl).1,
    ?_, (c7_list_failure_scan_continues c7Env indexInit podsGVR "boom" rfl).2.2.1,
    (c7_list_failure_scan_continues c7Env indexInit podsGVR "boom" rfl).2.2.2.1
      nodesGVR (by decide)⟩
  rw [(c7_list_failure_scan_continues c7Env indexInit podsGVR "boom" rfl).2.1]
  decide

/-! ### C8 -/

/-- C8: with both counters zero the diagnostic stream receives exactly
the no-problems line, otherwise the summary with both counts; the
singular form is used exactly when a count equals one. -/
theorem c8_summary_pluralize (e w : Nat) :
    (e = 0 ∧ w = 0 → summaryLine e w = "No invalid ownerReferences found\n")
    ∧ (0 < e ∨ 0 < w →
      summaryLine e w =
        toString e ++ " " ++ (if e = 1 then "error" else "errors") ++ ", " ++
          toString w ++ " " ++ (if w = 1 then "warning" else "warnings") ++ "\n")
    ∧ (pluralize e "error" "errors" =
      toString e ++ " " ++ (if e = 1 then "error" else "errors")) := by
  refine ⟨?_, ?_, ?_⟩
  · rintro ⟨he, hw⟩
    subst he
    subst hw
    rfl
  · intro h
    unfold summaryLine pluralize
    rw [if_pos h]
    by_cases he : e = 1 <;> by_cases hw : w = 1 <;>
      simp [he, hw, String.append_assoc]
  · unfold pluralize
    by_cases he : e = 1 <;> simp [he]

theorem c8_summary_pluralize_witness :
    summaryLine 0 0 = "No invalid ownerReferences found\n"
    ∧ summaryLine 1 0 = "1 error, 0 warnings\n"
    ∧ summaryLine 2 1 = "2 errors, 1 warning\n" := by
  refine ⟨(c8_summary_pluralize 0 0).1 ⟨rfl, rfl⟩, ?_, ?_⟩
  · rw [(c8_summary_pluralize 1 0).2.1 (Or.inl (by decide))]
    rfl
  · rw [(c8_summary_pluralize 2 1).2.1 (Or.inl (by decide))]
    rfl

/-! ### C9 -/

/-- C9: a retrieved object whose embedded apiVersion and kind are both
empty is inserted with both fields backfilled from the resource type
resolved kind (rendered group/version and kind; when kind resolution
failed the resolved kind is the empty GroupVersionKind and the backfilled
fields coincide with the empty originals), an object with a non-empty
apiVersion or kind is inserted unchanged, and the backfilled object is
what the per-type and per-UID indexes receive. -/
theorem c9_kind_backfill (gvk : GroupVersionKind) (gvr : GroupVersionResource)
    (st : IndexState) (raw : PartialObjectMetadata) :
    ((raw.apiVersion = "" ∧ raw.kind = "") →
      backfill gvk raw =
        { raw with apiVersion := gvString ⟨gvk.group, gvk.version⟩, kind := gvk.kind })
    ∧ ((raw.apiVersion ≠ "" ∨ raw.kind ≠ "") → backfill gvk raw = raw)
    ∧ (insertItem gvk gvr st raw).byGVR gvr = st.byGVR gvr ++ [backfill gvk raw]
    ∧ (insertItem gvk gvr st raw).byUID raw.uid =
      st.byUID raw.uid ++ [backfill gvk raw] := by
  refine ⟨?_, ?_, insertItem_byGVR_self gvk gvr st raw, insertItem_byUID_self gvk gvr st raw⟩
  · rintro ⟨ha, hk⟩
    unfold backfill
    by_cases hg : gvkEmpty gvk
    · rw [if_neg (by simp [hg])]
      obtain ⟨e1, e2, e3⟩ := hg
      obtain ⟨a, k, n, nm, u, refs⟩ := raw
      simp only at ha hk
      subst ha
      subst hk
      simp [gvString, e1, e2, e3]
    · rw [if_pos ⟨ha, hk, hg⟩]
  · intro h
    unfold backfill
    rw [if_neg ?_]
    rintro ⟨c1, c2, -⟩
    rcases h with h | h
    · exact h c1
    · exact h c2

def gvkNode : GroupVersionKind := ⟨"", "v1", "Node"⟩

def rawPartial : PartialObjectMetadata := ⟨"", "", "", "node1", "node1uid", []⟩

theorem c9_kind_backfill_witness :
    backfill gvkNode rawPartial = ⟨"v1", "Node", "", "node1", "node1uid", []⟩
    ∧ backfill gvkNode cNode1 = cNode1 := by
  constructor
  · exact (c9_kind_backfill gvkNode nodesGVR indexInit rawPartial).1 ⟨rfl, rfl⟩
  · exact (c9_kind_backfill gvkNode nodesGVR indexInit cNode1).2.1 (Or.inl (by decide))

/-! ### C10 -/

/-- C10: a group/version that appears in the failure sets of both
discovery passes is warned about exactly once: the first pass records the
first error for it, one warn event is emitted for it over both passes,
the warning counter equals the number of warn events, and the recorded
error is the first one seen. -/
theorem c10_discovery_dedup (p1 p2 : List (GroupVersion × String))
    (gv : GroupVersion) (e1 : String)
    (hfind : p1.find? (fun f => decide (f.1 = gv)) = some (gv, e1))
    (hmem : gv ∈ p2.map Prod.fst) :
    (discoveryStage p1 p2).gvDiscoveryFailures gv = some e1
    ∧ warnedFor (discoveryStage p1 p2) gv = 1
    ∧ (discoveryStage p1 p2).warningCount = (discoveryStage p1 p2).warned.length := by
  have hpass1 : (p1.foldl recordFailure discoveryInit).gvDiscoveryFailures gv = some e1 := by
    rw [discoveryFold_map_none p1 discoveryInit gv rfl, hfind]
    rfl
  have hmem1 : gv ∈ p1.map Prod.fst := by
    have := List.mem_of_find?_eq_some hfind
    exact List.mem_map.mpr ⟨(gv, e1), this, rfl⟩
  refine ⟨?_, ?_, ?_⟩
  · exact discoveryFold_map_some p2 _ gv e1 hpass1
  · rw [discoveryStage, discoveryFold_warnedFor_some p2 _ gv e1 hpass1,
      discoveryFold_warnedFor_none p1 discoveryInit gv rfl, if_pos hmem1]
    rfl
  · exact discoveryFold_count_eq_length p2 _
      (discoveryFold_count_eq_length p1 discoveryInit rfl)

def gvX : GroupVersion := ⟨"g", "v1"⟩

theorem c10_discovery_dedup_witness :
    (discoveryStage [(gvX, "e1")] [(gvX, "e2")]).gvDiscoveryFailures gvX = some "e1"
    ∧ warnedFor (discoveryStage [(gvX, "e1")] [(gvX, "e2")]) gvX = 1
    ∧ (discoveryStage [(gvX, "e1")] [(gvX, "e2")]).warningCount =
      (discoveryStage [(gvX, "e1")] [(gvX, "e2")]).warned.length := by
  exact c10_discovery_dedup [(gvX, "e1")] [(gvX, "e2")] gvX "e1" (by decide) (by decide)

/-! ### C3 -/

def envC3 : ValidateEnv :=
  ⟨fun _ _ => .error "x", fun _ => none, fun _ => none, fun _ => []⟩

def refC3 : OwnerReference := ⟨"a/b/c", "Node", "node1", "u1"⟩

def childC3 : PartialObjectMetadata := ⟨"v1", "Pod", "ns1", "pod1", "p1", [refC3]⟩

def byGVRC3 : GroupVersionResource → List PartialObjectMetadata :=
  fun g => if g = podsGVR then [childC3] else []

def c3RunJson : OutState :=
  runValidStage OutputMode.json envC3 byGVRC3 [podsGVR] ⟨[], 0, 0⟩

def c3RunTab : OutState :=
  runValidStage OutputMode.tabular envC3 byGVRC3 [podsGVR] ⟨[], 0, 0⟩

/-- C3: the counters equal the emitted findings counts only in tabular
mode.  In structured/JSON mode outputRefMessage writes the record but
does not increment the counters: the same input that leaves tabular mode
with errorCount 1 leaves JSON mode with errorCount 0 even though one
Error finding was emitted, and the run then prints the no-problems
summary line. -/
theorem c3_json_sink_skips_counters :
    c3RunJson.findings =
      [⟨podsGVR, childC3, refC3, levelError,
        "invalid owner apiVersion a/b/c: unexpected GroupVersion string: a/b/c"⟩]
    ∧ c3RunJson.errorCount = 0
    ∧ c3RunJson.warningCount = 0
    ∧ summaryLine c3RunJson.errorCount c3RunJson.warningCount =
      "No invalid ownerReferences found\n"
    ∧ c3RunTab.findings = c3RunJson.findings
    ∧ c3RunTab.errorCount = 1 := by
  refine ⟨?_, rfl, rfl, rfl, ?_, rfl⟩
  · decide
  · decide
